import Mathlib

/-!
Shallow embedding of the detection-and-tracking engine of the torn-discord-bot
repository: the per-player bazaar snapshot diff (src/core/detector.py), the
target ledger model (src/database/models.py), the per-target business-rule
pass (src/core/tracker.py) and the closed-bazaar phase of the cycle
orchestrator (src/core/monitor.py).  Machine integers are modelled as Nat/Int
(Python integers are unbounded), SQLite rows as Lean structures, Python dicts
keyed by integers as association lists, and the one string-keyed dict whose
exact key set matters (the per-player result dict built in Monitor._run_cycle)
as an association list over String.
-/

/-- Association-list lookup, keyed by `Nat` (models Python `dict[key]` /
SQLite `WHERE`-by-key lookups). -/
def lookupA {α : Type} : List (Nat × α) → Nat → Option α
  | [], _ => none
  | (k', v) :: t, k => if k' = k then some v else lookupA t k

/-- Association-list update: replace the binding in place when the key is
present, append it otherwise (models Python `dict[key] = v` and SQLite
`INSERT OR REPLACE` keyed updates). -/
def updA {α : Type} : List (Nat × α) → Nat → α → List (Nat × α)
  | [], k, v => [(k, v)]
  | (k', v') :: t, k, v => if k' = k then (k, v) :: t else (k', v') :: updA t k v

/-- Python `s.startswith(pat)`. -/
def pyStartsWith (s pat : String) : Bool :=
  pat.toList.isPrefixOf s.toList

/-- Contiguous-sublist check over character lists. -/
def subListCheck (pat : List Char) : List Char → Bool
  | [] => pat.isEmpty
  | c :: t => pat.isPrefixOf (c :: t) || subListCheck pat t

/-- Python `pat in s` on strings (substring containment). -/
def pyIn (pat s : String) : Bool :=
  subListCheck pat.toList s.toList

/-- One formatted bazaar item as produced by `TornAPIClient._make_request`
(src/api/torn.py): `{item_id, name, quantity, price}`. -/
structure BazaarItem where
  item_id : Nat
  name : String
  quantity : Nat
  price : Nat
deriving DecidableEq, Repr

/-- One stored snapshot row value: the `{'quantity': _, 'price': _}` dict
built by `BazaarStateModel.get_player_snapshot` (src/database/models.py). -/
structure SnapEntry where
  quantity : Nat
  price : Nat
deriving DecidableEq, Repr

/-- A stored per-player snapshot: `item_id -> (quantity, price)`. -/
abbrev Snapshot := List (Nat × SnapEntry)

/-- The net effect of `BazaarStateModel.save_player_snapshot` followed by
`get_player_snapshot`: the rows inserted from the current bazaar list read
back as a dict keyed by `item_id` (the table's primary key is
`(player_id, item_id)`, so a repeated id keeps the last row). -/
def snapshotOfBazaar (items : List BazaarItem) : Snapshot :=
  items.foldl (fun acc it => updA acc it.item_id ⟨it.quantity, it.price⟩) []

/-- The `player_bazaar_snapshots` table: `player_id -> snapshot rows`. -/
abbrev BazaarStore := List (Nat × Snapshot)

/-- `BazaarStateModel.get_player_snapshot`: the rows for the player as a
dict; a player with no rows yields the empty dict. -/
def get_player_snapshot (store : BazaarStore) (pid : Nat) : Snapshot :=
  (lookupA store pid).getD []

/-- `BazaarStateModel.save_player_snapshot`: delete the player's old rows and
insert one row per current bazaar item. -/
def save_player_snapshot (store : BazaarStore) (pid : Nat)
    (items : List BazaarItem) : BazaarStore :=
  updA store pid (snapshotOfBazaar items)

/-- A detected sale event as built by `SaleDetector.detect_sales_for_player`
(src/core/detector.py).  `source` is `none` for detector-built events (their
dicts carry no `source` key); `player_id` is optional because
`TargetTracker.process_detected_sales` guards against events lacking one. -/
structure SaleEvent where
  player_id : Option Nat
  player_name : String
  item_id : Nat
  item_name : String
  quantity_sold : Nat
  unit_price : Nat
  total_value : Nat
  source : Option String
deriving DecidableEq, Repr

/-- The quantity-decrease arm of the snapshot comparison: for a current item
also present in the previous snapshot, emit a sale of the missing units at
the previous unit price. -/
def decreaseEvent (pid : Nat) (pname : String) (previous : Snapshot)
    (item : BazaarItem) : Option SaleEvent :=
  match lookupA previous item.item_id with
  | some prev =>
    if item.quantity < prev.quantity then
      some { player_id := some pid
             player_name := pname
             item_id := item.item_id
             item_name := item.name
             quantity_sold := prev.quantity - item.quantity
             unit_price := prev.price
             total_value := (prev.quantity - item.quantity) * prev.price
             source := none }
    else none
  | none => none

/-- The delisted arm: an item present in the previous snapshot but absent
from the current bazaar is treated as fully sold at the previous price. -/
def delistedEvent (pid : Nat) (pname : String) (current : List BazaarItem)
    (pd : Nat × SnapEntry) : Option SaleEvent :=
  if current.any (fun item => item.item_id == pd.fst) then none
  else
    some { player_id := some pid
           player_name := pname
           item_id := pd.fst
           item_name := "Item " ++ toString pd.fst
           quantity_sold := pd.snd.quantity
           unit_price := pd.snd.price
           total_value := pd.snd.quantity * pd.snd.price
           source := none }

/-- The snapshot comparison of `detect_sales_for_player` when a previous
snapshot exists: quantity-decrease sales (in current-bazaar order) followed
by delisted sales (in previous-snapshot order). -/
def detectSalesCore (pid : Nat) (pname : String) (previous : Snapshot)
    (current : List BazaarItem) : List SaleEvent :=
  current.filterMap (decreaseEvent pid pname previous)
    ++ previous.filterMap (delistedEvent pid pname current)

/-- `SaleDetector.detect_sales_for_player`: fetch the previous snapshot; if
it is empty (`if not previous_snapshot`, which is true both for a missing
snapshot and for a stored empty one), save the current bazaar and return no
sales; otherwise diff, then unconditionally save the current bazaar. -/
def detect_sales_for_player (store : BazaarStore) (pid : Nat) (pname : String)
    (current : List BazaarItem) : List SaleEvent × BazaarStore :=
  let previous := get_player_snapshot store pid
  if previous.isEmpty then
    ([], save_player_snapshot store pid current)
  else
    (detectSalesCore pid pname previous current,
     save_player_snapshot store pid current)

/-- One row of the `tracked_targets` table (src/database/db.py schema).
`sales_breakdown` is the JSON dict `item_id -> cumulative value`;
`travel_state` defaults to `"Okay"` in the schema and is never NULL;
`last_alerted_value` is nullable in the schema (new rows insert 0);
`last_sale_time` is stored as a timestamp string, modelled as `Option Nat`
(`none` for an absent/unparseable value).  `status_state`,
`status_description` and `last_action_minutes` are modelled as already
populated: every live record received a profile update in its creation
cycle before any rule pass reads it. -/
structure TargetRecord where
  player_id : Nat
  player_name : String
  accumulated_value : Int
  sales_breakdown : List (Nat × Int)
  first_detected : Nat
  last_sale_time : Option Nat
  last_alerted_value : Option Int
  last_action_minutes : Nat
  status_state : String
  status_description : String
  travel_state : String
  sa_deduction_applied : Bool
deriving DecidableEq, Repr

/-- `sales_breakdown[k] = sales_breakdown.get(k, 0) + v`. -/
def bdAdd (bd : List (Nat × Int)) (k : Nat) (v : Int) : List (Nat × Int) :=
  updA bd k ((lookupA bd k).getD 0 + v)

/-- The UPDATE arm of `TrackedTargetsModel.add_or_update_target`: add the
sale value to the accumulation and to the per-item breakdown, refresh the
player name and the last-sale time. -/
def accumulate_update (pname : String) (v : Int) (item_id : Nat) (now : Nat)
    (t : TargetRecord) : TargetRecord :=
  { t with accumulated_value := t.accumulated_value + v
           sales_breakdown := bdAdd t.sales_breakdown item_id v
           player_name := pname
           last_sale_time := some now }

/-- The INSERT arm of `add_or_update_target`: a fresh row.  Columns the
INSERT does not list take their schema defaults (`travel_state 'Okay'`,
`sa_deduction_applied 0`); the NULL profile columns are modelled with the
tracker's own read defaults (`last_action_minutes` 999, empty status). -/
def newTargetRecord (pid : Nat) (pname : String) (v : Int) (item_id : Nat)
    (now : Nat) : TargetRecord :=
  { player_id := pid
    player_name := pname
    accumulated_value := v
    sales_breakdown := [(item_id, v)]
    first_detected := now
    last_sale_time := some now
    last_alerted_value := some 0
    last_action_minutes := 999
    status_state := ""
    status_description := ""
    travel_state := "Okay"
    sa_deduction_applied := false }

/-- `TrackedTargetsModel.add_or_update_target` over the table contents
(`player_id` is the primary key). -/
def add_or_update_target (targets : List TargetRecord) (pid : Nat)
    (pname : String) (v : Int) (item_id : Nat) (now : Nat) :
    List TargetRecord :=
  if targets.any (fun t => t.player_id == pid) then
    targets.map fun t =>
      if t.player_id == pid then accumulate_update pname v item_id now t else t
  else
    targets ++ [newTargetRecord pid pname v item_id now]

/-- `TrackedTargetsModel.get_target`. -/
def get_target (targets : List TargetRecord) (pid : Nat) :
    Option TargetRecord :=
  targets.find? (fun t => t.player_id == pid)

/-- `TrackedTargetsModel.reset_target`: DELETE the row. -/
def reset_target (targets : List TargetRecord) (pid : Nat) :
    List TargetRecord :=
  targets.filter (fun t => !(t.player_id == pid))

/-- One row of the append-only `transaction_log` table. -/
structure TxRow where
  player_id : Nat
  player_name : String
  item_id : Nat
  item_name : String
  quantity : Nat
  unit_price : Nat
  total_value : Nat
deriving DecidableEq, Repr

/-- The state mutated by `TargetTracker.process_detected_sales`: the tracked
targets table and the transaction log. -/
structure LedgerState where
  targets : List TargetRecord
  txlog : List TxRow
deriving DecidableEq, Repr

/-- One iteration of the loop in `TargetTracker.process_detected_sales`
(src/core/tracker.py): skip events whose `source` is `'itemmarket'` or whose
`player_id` is absent; otherwise append a transaction-log row and fold the
value into the target record. -/
def process_one_sale (now : Nat) (st : LedgerState) (s : SaleEvent) :
    LedgerState :=
  if (s.source == some "itemmarket") || s.player_id.isNone then st
  else
    match s.player_id with
    | none => st
    | some pid =>
      { targets := add_or_update_target st.targets pid s.player_name
          (s.total_value : Int) s.item_id now
        txlog := st.txlog ++
          [{ player_id := pid
             player_name := s.player_name
             item_id := s.item_id
             item_name := s.item_name
             quantity := s.quantity_sold
             unit_price := s.unit_price
             total_value := s.total_value }] }

/-- `TargetTracker.process_detected_sales` over a list of detected sales. -/
def process_detected_sales (st : LedgerState) (sales : List SaleEvent)
    (now : Nat) : LedgerState :=
  sales.foldl (process_one_sale now) st

/-- The profile fields written back by
`TrackedTargetsModel.batch_update_profile_data`. -/
structure ProfileData where
  player_name : String
  last_action_minutes : Nat
  status_state : String
  status_description : String
deriving DecidableEq, Repr

/-- One row of `batch_update_profile_data` (src/database/models.py): the
profile's `status_state` is written into BOTH `status_state` and
`travel_state` (and its description into both description columns). -/
def update_profile_fields (t : TargetRecord) (p : ProfileData) :
    TargetRecord :=
  { t with last_action_minutes := p.last_action_minutes
           status_state := p.status_state
           status_description := p.status_description
           travel_state := p.status_state }

/-- The Cayman Islands block of `TargetTracker.apply_business_logic`:
money-storage location; VIP resets to 0, non-VIP is dropped. -/
def caymanStep (isVip : Bool) (t : TargetRecord) : Option TargetRecord :=
  if pyIn "Cayman Islands" t.status_description then
    if isVip then some { t with accumulated_value := 0 } else none
  else some t

/-- The documented South Africa penalty constant. -/
def SA_DEDUCTION : Int := 20000000

/-- The South Africa block: deduct $20M once, guarded by
`sa_deduction_applied`, unless the description says `Returning`. -/
def saStep (t : TargetRecord) : TargetRecord :=
  if pyIn "South Africa" t.status_description
      && !(pyIn "Returning" t.status_description)
      && !t.sa_deduction_applied then
    { t with accumulated_value := t.accumulated_value - SA_DEDUCTION
             sa_deduction_applied := true }
  else t

/-- The mugged block: `status_description.startswith('Mugged by')`; VIP
resets to 0, non-VIP is dropped (traveling or not). -/
def muggedStep (isVip : Bool) (t : TargetRecord) : Option TargetRecord :=
  if pyStartsWith t.status_description "Mugged by" then
    if isVip then some { t with accumulated_value := 0 } else none
  else some t

/-- The online block: an online actor is left untouched while traveling;
otherwise VIP resets to 0 and non-VIP is dropped. -/
def onlineStep (isVip isTraveling isOnline : Bool) (t : TargetRecord) :
    Option TargetRecord :=
  if isOnline then
    if isTraveling then some t
    else if isVip then some { t with accumulated_value := 0 }
    else none
  else some t

/-- The landed-back block: clear the SA flag when the current status is
`Okay` and the stored `travel_state` (read at loop entry) is `Abroad`. -/
def landedStep (prevTravel : String) (t : TargetRecord) : TargetRecord :=
  if t.status_state == "Okay" && prevTravel == "Abroad"
      && t.sa_deduction_applied then
    { t with sa_deduction_applied := false }
  else t

/-- The Federal block: drop unconditionally, VIP or not. -/
def federalStep (t : TargetRecord) : Option TargetRecord :=
  if t.status_state == "Federal" then none else some t

/-- The per-target body of `TargetTracker.apply_business_logic`
(src/core/tracker.py): the blocks in source order, with the locals
(`is_traveling`, `is_online`, `previous_travel_state`) read from the record
at loop entry; `none` models the `reset_target` + `continue` drops. -/
def apply_business_logic_target (vip : List Nat) (t : TargetRecord) :
    Option TargetRecord :=
  match caymanStep (vip.contains t.player_id) t with
  | none => none
  | some t1 =>
    match muggedStep (vip.contains t.player_id) (saStep t1) with
    | none => none
    | some t3 =>
      match onlineStep (vip.contains t.player_id)
          (t.status_state == "Abroad")
          (decide (t.last_action_minutes < 2)) t3 with
      | none => none
      | some t4 => federalStep (landedStep t.travel_state t4)

/-- The keep-predicate of `TargetTracker._drop_stale_targets_2hr`: keep a
record with no (or unparseable) `last_sale_time`; keep a stale one only when
the player is VIP. -/
def stalePred (vip : List Nat) (cutoff : Nat) (t : TargetRecord) : Bool :=
  match t.last_sale_time with
  | none => true
  | some ts => !(decide (ts < cutoff)) || vip.contains t.player_id

/-- `TargetTracker._drop_stale_targets_2hr` over the table contents. -/
def drop_stale_targets (vip : List Nat) (cutoff : Nat)
    (targets : List TargetRecord) : List TargetRecord :=
  targets.filter (stalePred vip cutoff)

/-- `TargetTracker.apply_business_logic` over the table contents: the
per-target rule pass, then the staleness pass (rule mutations never touch
`last_sale_time`, so filtering the survivors is equivalent to the source's
two passes over the same table). -/
def apply_business_logic (vip : List Nat) (cutoff : Nat)
    (targets : List TargetRecord) : List TargetRecord :=
  drop_stale_targets vip cutoff
    (targets.filterMap (apply_business_logic_target vip))

/-- The alert filter of `TrackedTargetsModel.get_targets_for_alerts`:
`accumulated_value >= min AND last_action_minutes >= min AND
status_state = 'Okay' AND (last_alerted_value IS NULL OR
accumulated_value > last_alerted_value)`. -/
def alertPred (min_accumulated : Int) (min_inactivity : Nat)
    (t : TargetRecord) : Bool :=
  decide (min_accumulated ≤ t.accumulated_value)
    && decide (min_inactivity ≤ t.last_action_minutes)
    && (t.status_state == "Okay")
    && (match t.last_alerted_value with
        | none => true
        | some lav => decide (lav < t.accumulated_value))

/-- Insert into a list kept sorted by `accumulated_value` descending. -/
def insertDesc (t : TargetRecord) : List TargetRecord → List TargetRecord
  | [] => [t]
  | h :: rest =>
    if h.accumulated_value ≤ t.accumulated_value then t :: h :: rest
    else h :: insertDesc t rest

/-- Sort by `accumulated_value` descending (`ORDER BY accumulated_value
DESC`). -/
def sortDesc : List TargetRecord → List TargetRecord
  | [] => []
  | h :: rest => insertDesc h (sortDesc rest)

/-- `TrackedTargetsModel.get_targets_for_alerts`. -/
def get_targets_for_alerts (targets : List TargetRecord)
    (min_accumulated : Int) (min_inactivity : Nat) : List TargetRecord :=
  sortDesc (targets.filter (alertPred min_accumulated min_inactivity))

/-- Values stored in the per-player result dict built by `monitor_player`
inside `Monitor._run_cycle` (src/core/monitor.py). -/
inductive DVal where
  | vnat : Nat → DVal
  | vbool : Bool → DVal
  | vsales : List SaleEvent → DVal
  | vprofile : ProfileData → DVal
  | vbazaar : List BazaarItem → DVal
deriving DecidableEq, Repr

/-- String-keyed dict lookup (Python `result.get(key)`). -/
def dictGet : List (String × DVal) → String → Option DVal
  | [], _ => none
  | (k', v) :: t, k => if k' == k then some v else dictGet t k

/-- Python truthiness of a stored value. -/
def pyTruthy : DVal → Bool
  | .vnat n => n != 0
  | .vbool b => b
  | .vsales l => !l.isEmpty
  | .vprofile _ => true
  | .vbazaar l => !l.isEmpty

/-- The result of `TornAPIClient._make_request` (src/api/torn.py) on a
successful fetch: the formatted bazaar, the `bazaar_is_open` flag read from
the response (defaulting to open), and the parsed profile. -/
structure FetchResult where
  bazaar : List BazaarItem
  bazaar_is_open : Bool
  profile_data : ProfileData
deriving DecidableEq, Repr

/-- The dict literally returned by `monitor_player` in `Monitor._run_cycle`:
exactly the keys `player_id`, `sales`, `profile_data`, `bazaar` — the
fetch's `bazaar_is_open` flag is not among them. -/
def monitor_player_result (pid : Nat) (sales : List SaleEvent)
    (p : ProfileData) (baz : List BazaarItem) : List (String × DVal) :=
  [("player_id", .vnat pid), ("sales", .vsales sales),
   ("profile_data", .vprofile p), ("bazaar", .vbazaar baz)]

/-- `monitor_player` on a successful fetch: run the sale detector on the
fetched bazaar and package the result dict. -/
def monitor_player (store : BazaarStore) (pid : Nat) (data : FetchResult) :
    List (String × DVal) × BazaarStore :=
  let r := detect_sales_for_player store pid data.profile_data.player_name
    data.bazaar
  (monitor_player_result pid r.fst data.profile_data data.bazaar, r.snd)

/-- Phase 5.5 of `Monitor._run_cycle` for one result dict: read
`result.get('bazaar_is_open', True)`; on a closed bazaar drop the live
record (non-VIP) or zero its accumulation (VIP). -/
def drop_closed_bazaar_step (vip : List Nat) (targets : List TargetRecord)
    (result : List (String × DVal)) : List TargetRecord :=
  let pid := match dictGet result "player_id" with
             | some (.vnat n) => n
             | _ => 0
  let bazaarOpenV := (dictGet result "bazaar_is_open").getD (.vbool true)
  if !(pyTruthy bazaarOpenV) && !(vip.contains pid) then
    match get_target targets pid with
    | some _ => reset_target targets pid
    | none => targets
  else if !(pyTruthy bazaarOpenV) && vip.contains pid then
    match get_target targets pid with
    | some _ => targets.map fun t =>
        if t.player_id == pid then { t with accumulated_value := 0 } else t
    | none => targets
  else targets

/-! ## Concrete inputs used by counterexamples and witnesses -/

/-- A profile report: the actor is back home in Torn and idle. -/
def pOkayHome : ProfileData :=
  { player_name := "Bob"
    last_action_minutes := 30
    status_state := "Okay"
    status_description := "Okay" }

/-- A record as left by the previous cycle: actor 11 abroad in South Africa,
the $20M deduction already applied. -/
def tAbroadSA : TargetRecord :=
  { player_id := 11
    player_name := "Bob"
    accumulated_value := -14000000
    sales_breakdown := [(206, 6000000)]
    first_detected := 0
    last_sale_time := some 1000
    last_alerted_value := some 0
    last_action_minutes := 30
    status_state := "Abroad"
    status_description := "In South Africa"
    travel_state := "Abroad"
    sa_deduction_applied := true }

/-- A VIP record whose status is the Federal jail state. -/
def tFederalVip : TargetRecord :=
  { player_id := 7
    player_name := "Vic"
    accumulated_value := 5000000
    sales_breakdown := [(206, 5000000)]
    first_detected := 0
    last_sale_time := some 1000
    last_alerted_value := some 0
    last_action_minutes := 500
    status_state := "Federal"
    status_description := "In federal jail for 10 hours"
    travel_state := "Federal"
    sa_deduction_applied := false }

/-- A VIP record whose status description reports a mugging. -/
def tMuggedVip : TargetRecord :=
  { player_id := 7
    player_name := "Vic"
    accumulated_value := 9000000
    sales_breakdown := [(206, 9000000)]
    first_detected := 0
    last_sale_time := some 1000
    last_alerted_value := some 0
    last_action_minutes := 40
    status_state := "Okay"
    status_description := "Mugged by SomeoneElse"
    travel_state := "Okay"
    sa_deduction_applied := false }

/-- A live non-VIP record for actor 42. -/
def t42 : TargetRecord :=
  { player_id := 42
    player_name := "Bob"
    accumulated_value := 5000000
    sales_breakdown := [(206, 5000000)]
    first_detected := 0
    last_sale_time := some 1000
    last_alerted_value := some 0
    last_action_minutes := 50
    status_state := "Okay"
    status_description := "Okay"
    travel_state := "Okay"
    sa_deduction_applied := false }

/-- A stored snapshot for actor 42: item 206, 5 units at $1,000,000. -/
def store42 : BazaarStore := [(42, [(206, ⟨5, 1000000⟩)])]

/-- A fetch whose response reports the bazaar closed. -/
def dataClosed : FetchResult :=
  { bazaar := []
    bazaar_is_open := false
    profile_data := pOkayHome }

/-- An item-market activity event with no identified seller. -/
def sItemMarket : SaleEvent :=
  { player_id := none
    player_name := "ItemMarket"
    item_id := 206
    item_name := "Xanax"
    quantity_sold := 3
    unit_price := 830000
    total_value := 2490000
    source := some "itemmarket" }

/-- A ledger state with one tracked target and one logged transaction. -/
def stLedger : LedgerState :=
  { targets := [t42]
    txlog := [{ player_id := 42, player_name := "Bob", item_id := 206
                item_name := "Xanax", quantity := 5
                unit_price := 1000000, total_value := 5000000 }] }

/-- Agreement on every `TargetRecord` field except `accumulated_value` and
`sa_deduction_applied` — the only fields the money rules ever mutate. -/
def nonMoneyEq (t t' : TargetRecord) : Prop :=
  t'.player_id = t.player_id ∧ t'.player_name = t.player_name ∧
  t'.sales_breakdown = t.sales_breakdown ∧
  t'.first_detected = t.first_detected ∧
  t'.last_sale_time = t.last_sale_time ∧
  t'.last_alerted_value = t.last_alerted_value ∧
  t'.last_action_minutes = t.last_action_minutes ∧
  t'.status_state = t.status_state ∧
  t'.status_description = t.status_description ∧
  t'.travel_state = t.travel_state

instance (t t' : TargetRecord) : Decidable (nonMoneyEq t t') := by
  unfold nonMoneyEq
  infer_instance

/-! ## Association-list and snapshot-store lemmas -/

theorem lookupA_updA {α : Type} (l : List (Nat × α)) (k : Nat) (v : α)
    (k' : Nat) :
    lookupA (updA l k v) k' = if k' = k then some v else lookupA l k' := by
  induction l with
  | nil =>
    simp only [updA, lookupA]
    by_cases h : k = k'
    · subst h
      simp
    · rw [if_neg h, if_neg (fun hh => h hh.symm)]
  | cons hd tl ih =>
    obtain ⟨a, b⟩ := hd
    simp only [updA]
    by_cases hak : a = k
    · subst hak
      simp only [if_pos rfl, lookupA]
      by_cases h : a = k'
      · subst h
        simp
      · rw [if_neg h, if_neg (fun hh => h hh.symm), if_neg h]
    · rw [if_neg hak]
      by_cases h : a = k'
      · subst h
        simp [lookupA, fun hh : a = k => hak hh]
      · simp [lookupA, h, ih]

theorem get_save_player_snapshot (store : BazaarStore) (pid : Nat)
    (items : List BazaarItem) :
    get_player_snapshot (save_player_snapshot store pid items) pid
      = snapshotOfBazaar items := by
  unfold get_player_snapshot save_player_snapshot
  rw [lookupA_updA]
  simp

/-! ## Claim C8 and C10 -/

/-- Claim C8: for every actor with no previously stored snapshot, detect
returns the empty list of sale events and stores the current snapshot as the
new baseline, for every current snapshot. -/
theorem detect_no_baseline (store : BazaarStore) (pid : Nat) (pname : String)
    (current : List BazaarItem) (h : lookupA store pid = none) :
    (detect_sales_for_player store pid pname current).fst = [] ∧
    get_player_snapshot (detect_sales_for_player store pid pname current).snd
      pid = snapshotOfBazaar current := by
  have hprev : get_player_snapshot store pid = [] := by
    unfold get_player_snapshot
    rw [h]
    rfl
  unfold detect_sales_for_player
  rw [hprev]
  exact ⟨rfl, get_save_player_snapshot store pid current⟩

theorem detect_no_baseline_witness :
    (detect_sales_for_player [] 9 "Bob" [⟨206, "Xanax", 4, 100⟩]).fst = [] ∧
    get_player_snapshot
      (detect_sales_for_player [] 9 "Bob" [⟨206, "Xanax", 4, 100⟩]).snd 9
      = snapshotOfBazaar [⟨206, "Xanax", 4, 100⟩] :=
  detect_no_baseline [] 9 "Bob" [⟨206, "Xanax", 4, 100⟩] (by decide)

/-- Claim C10: an empty stored snapshot is indistinguishable from a missing
one: for every actor whose stored snapshot contains zero items, detect
returns the empty list of sale events for every current snapshot and stores
the current snapshot. -/
theorem detect_empty_baseline (store : BazaarStore) (pid : Nat)
    (pname : String) (current : List BazaarItem)
    (h : lookupA store pid = some []) :
    (detect_sales_for_player store pid pname current).fst = [] ∧
    get_player_snapshot (detect_sales_for_player store pid pname current).snd
      pid = snapshotOfBazaar current := by
  have hprev : get_player_snapshot store pid = [] := by
    unfold get_player_snapshot
    rw [h]
    rfl
  unfold detect_sales_for_player
  rw [hprev]
  exact ⟨rfl, get_save_player_snapshot store pid current⟩

theorem detect_empty_baseline_witness :
    (detect_sales_for_player [(9, [])] 9 "Bob"
      [⟨206, "Xanax", 4, 100⟩]).fst = [] ∧
    get_player_snapshot
      (detect_sales_for_player [(9, [])] 9 "Bob"
        [⟨206, "Xanax", 4, 100⟩]).snd 9
      = snapshotOfBazaar [⟨206, "Xanax", 4, 100⟩] :=
  detect_empty_baseline [(9, [])] 9 "Bob" [⟨206, "Xanax", 4, 100⟩] (by decide)

/-! ## Claim C9: skipped events leave the ledger unchanged -/

/-- Claim C9: for every sale event whose `source` is `'itemmarket'` or whose
`player_id` is absent, `process_detected_sales` leaves all state unchanged
for that event: no record is created or updated and no transaction-log row
is appended; removing the event from the batch yields the same state. -/
theorem process_skips_itemmarket (st : LedgerState)
    (pre post : List SaleEvent) (s : SaleEvent) (now : Nat)
    (h : s.source = some "itemmarket" ∨ s.player_id = none) :
    process_detected_sales st (pre ++ s :: post) now =
      process_detected_sales st (pre ++ post) now := by
  unfold process_detected_sales
  rw [List.foldl_append, List.foldl_append, List.foldl_cons]
  have hskip : ((s.source == some "itemmarket") || s.player_id.isNone)
      = true := by
    rcases h with h | h <;> simp [h]
  congr 1
  unfold process_one_sale
  rw [if_pos hskip]

theorem process_skips_itemmarket_witness :
    process_detected_sales stLedger ([] ++ sItemMarket :: []) 5 =
      process_detected_sales stLedger ([] ++ []) 5 :=
  process_skips_itemmarket stLedger [] [] sItemMarket 5 (Or.inl (by decide))

/-! ## Claim C4: the alert selection query -/

theorem mem_insertDesc (t x : TargetRecord) (l : List TargetRecord) :
    x ∈ insertDesc t l ↔ x = t ∨ x ∈ l := by
  induction l with
  | nil => simp [insertDesc]
  | cons h rest ih =>
    simp only [insertDesc]
    split
    · simp [List.mem_cons]
    · simp only [List.mem_cons, ih]
      tauto

theorem mem_sortDesc (x : TargetRecord) (l : List TargetRecord) :
    x ∈ sortDesc l ↔ x ∈ l := by
  induction l with
  | nil => simp [sortDesc]
  | cons h rest ih => simp [sortDesc, mem_insertDesc, ih]

theorem sorted_insertDesc (t : TargetRecord) (l : List TargetRecord)
    (hl : l.Pairwise
      (fun a b => b.accumulated_value ≤ a.accumulated_value)) :
    (insertDesc t l).Pairwise
      (fun a b => b.accumulated_value ≤ a.accumulated_value) := by
  induction l with
  | nil => simp [insertDesc]
  | cons h rest ih =>
    rw [List.pairwise_cons] at hl
    obtain ⟨hh, hrest⟩ := hl
    simp only [insertDesc]
    split
    · rename_i hle
      rw [List.pairwise_cons]
      refine ⟨?_, List.pairwise_cons.mpr ⟨hh, hrest⟩⟩
      intro y hy
      rcases List.mem_cons.mp hy with rfl | hy'
      · exact hle
      · exact le_trans (hh y hy') hle
    · rename_i hgt
      rw [List.pairwise_cons]
      refine ⟨?_, ih hrest⟩
      intro y hy
      rcases (mem_insertDesc t y rest).mp hy with rfl | hy'
      · exact le_of_not_le hgt
      · exact hh y hy'

theorem sorted_sortDesc (l : List TargetRecord) :
    (sortDesc l).Pairwise
      (fun a b => b.accumulated_value ≤ a.accumulated_value) := by
  induction l with
  | nil => simp [sortDesc]
  | cons h rest ih => exact sorted_insertDesc h (sortDesc rest) ih

theorem alertPred_iff (minA : Int) (minI : Nat) (t : TargetRecord) :
    alertPred minA minI t = true ↔
      (minA ≤ t.accumulated_value ∧ minI ≤ t.last_action_minutes ∧
       t.status_state = "Okay" ∧
       (t.last_alerted_value = none ∨
        ∃ lav, t.last_alerted_value = some lav ∧
          lav < t.accumulated_value)) := by
  unfold alertPred
  cases hl : t.last_alerted_value with
  | none => simp [hl, and_assoc]
  | some lav => simp [hl, and_assoc]

/-- Claim C4: for all thresholds, `get_targets_for_alerts` returns exactly
the records with `accumulated_value >= min_value`,
`last_action_minutes >= min_inactivity_minutes`, `status_state = "Okay"` and
(`last_alerted_value` unset or `accumulated_value > last_alerted_value`),
ordered by `accumulated_value` descending; in particular it never returns a
record whose `accumulated_value` equals its own `last_alerted_value`. -/
theorem get_targets_for_alerts_spec (targets : List TargetRecord)
    (minA : Int) (minI : Nat) :
    (∀ x, x ∈ get_targets_for_alerts targets minA minI ↔
        (x ∈ targets ∧ minA ≤ x.accumulated_value ∧
         minI ≤ x.last_action_minutes ∧ x.status_state = "Okay" ∧
         (x.last_alerted_value = none ∨
          ∃ lav, x.last_alerted_value = some lav ∧
            lav < x.accumulated_value))) ∧
    (get_targets_for_alerts targets minA minI).Pairwise
      (fun a b => b.accumulated_value ≤ a.accumulated_value) ∧
    (∀ x ∈ get_targets_for_alerts targets minA minI,
      x.last_alerted_value ≠ some x.accumulated_value) := by
  refine ⟨?_, sorted_sortDesc _, ?_⟩
  · intro x
    unfold get_targets_for_alerts
    rw [mem_sortDesc, List.mem_filter, alertPred_iff]
  · intro x hx
    unfold get_targets_for_alerts at hx
    rw [mem_sortDesc, List.mem_filter, alertPred_iff] at hx
    rcases hx.2.2.2.2 with h | ⟨lav, hl, hlt⟩
    · simp [h]
    · simp only [hl, ne_eq, Option.some.injEq]
      omega

/-! ## Claim C7: accumulation is additive and order-independent -/

theorem lookupA_bdAdd (bd : List (Nat × Int)) (k : Nat) (v : Int)
    (k' : Nat) :
    lookupA (bdAdd bd k v) k' =
      if k' = k then some ((lookupA bd k).getD 0 + v) else lookupA bd k' :=
  lookupA_updA bd k _ k'

theorem bdAdd_comm (bd : List (Nat × Int)) (k1 : Nat) (v1 : Int) (k2 : Nat)
    (v2 : Int) (k : Nat) :
    lookupA (bdAdd (bdAdd bd k1 v1) k2 v2) k =
      lookupA (bdAdd (bdAdd bd k2 v2) k1 v1) k := by
  by_cases h12 : k1 = k2
  · subst h12
    by_cases hk : k = k1 <;> simp [lookupA_bdAdd, hk]
    omega
  · have h21 : ¬k2 = k1 := fun hh => h12 hh.symm
    by_cases hk1 : k = k1
    · by_cases hk2 : k = k2
      · exact absurd (hk1.symm.trans hk2) h12
      · simp [lookupA_bdAdd, hk1, hk2, h12]
    · by_cases hk2 : k = k2
      · simp [lookupA_bdAdd, hk1, hk2, h21]
      · simp [lookupA_bdAdd, hk1, hk2]

theorem get_target_map_pres (f : TargetRecord → TargetRecord)
    (hf : ∀ t, (f t).player_id = t.player_id) (l : List TargetRecord)
    (pid : Nat) :
    get_target (l.map f) pid = (get_target l pid).map f := by
  induction l with
  | nil => rfl
  | cons h rest ih =>
    unfold get_target at *
    simp only [List.map_cons, List.find?]
    rw [hf h]
    cases hp : (h.player_id == pid) with
    | true => simp
    | false => simpa using ih

theorem get_target_add_or_update (targets : List TargetRecord) (pid : Nat)
    (t0 : TargetRecord) (pname : String) (v : Int) (item now : Nat)
    (hex : get_target targets pid = some t0) :
    get_target (add_or_update_target targets pid pname v item now) pid
      = some (accumulate_update pname v item now t0) := by
  have hexu : targets.find? (fun t => t.player_id == pid) = some t0 := hex
  have hp0 := List.find?_some hexu
  have hp : (t0.player_id == pid) = true := hp0
  have hmem : t0 ∈ targets := List.mem_of_find?_eq_some hexu
  have hany : (targets.any fun t => t.player_id == pid) = true :=
    List.any_eq_true.mpr ⟨t0, hmem, hp⟩
  have hfpres : ∀ t : TargetRecord,
      ((fun t : TargetRecord =>
        if t.player_id == pid then accumulate_update pname v item now t
        else t) t).player_id = t.player_id := by
    intro t
    by_cases h : (t.player_id == pid) = true <;> simp [h, accumulate_update]
  unfold add_or_update_target
  rw [if_pos hany, get_target_map_pres _ hfpres, hex]
  have heq : t0.player_id = pid := by simpa using hp
  simp [heq]

/-- Claim C7: accumulation is additive and order-independent: for any
existing target and any two sale-value deltas applied via
`add_or_update_target`, applying them in either order yields the same final
`accumulated_value` (the sum) and the same per-item `sales_breakdown`. -/
theorem accumulate_order_independent (targets : List TargetRecord)
    (pid : Nat) (t0 : TargetRecord) (n1 n2 : String) (v1 v2 : Int)
    (i1 i2 ta tb tc td : Nat)
    (hex : get_target targets pid = some t0) :
    ∃ t12 t21,
      get_target (add_or_update_target
        (add_or_update_target targets pid n1 v1 i1 ta) pid n2 v2 i2 tb) pid
        = some t12 ∧
      get_target (add_or_update_target
        (add_or_update_target targets pid n2 v2 i2 tc) pid n1 v1 i1 td) pid
        = some t21 ∧
      t12.accumulated_value = t0.accumulated_value + v1 + v2 ∧
      t21.accumulated_value = t0.accumulated_value + v1 + v2 ∧
      (∀ k, lookupA t12.sales_breakdown k = lookupA t21.sales_breakdown k) := by
  have h1 := get_target_add_or_update targets pid t0 n1 v1 i1 ta hex
  have h12 := get_target_add_or_update _ pid _ n2 v2 i2 tb h1
  have h2 := get_target_add_or_update targets pid t0 n2 v2 i2 tc hex
  have h21 := get_target_add_or_update _ pid _ n1 v1 i1 td h2
  refine ⟨_, _, h12, h21, rfl, ?_, ?_⟩
  · simp only [accumulate_update]
    omega
  · intro k
    simp only [accumulate_update]
    exact bdAdd_comm t0.sales_breakdown i1 v1 i2 v2 k

theorem accumulate_order_independent_witness :
    ∃ t12 t21,
      get_target (add_or_update_target
        (add_or_update_target [t42] 42 "Bob" 600 206 1) 42 "Bob" 250 207 2) 42
        = some t12 ∧
      get_target (add_or_update_target
        (add_or_update_target [t42] 42 "Bob" 250 207 3) 42 "Bob" 600 206 4) 42
        = some t21 ∧
      t12.accumulated_value = t42.accumulated_value + 600 + 250 ∧
      t21.accumulated_value = t42.accumulated_value + 600 + 250 ∧
      (∀ k, lookupA t12.sales_breakdown k = lookupA t21.sales_breakdown k) :=
  accumulate_order_independent [t42] 42 t42 "Bob" "Bob" 600 250 206 207
    1 2 3 4 (by decide)

/-! ## Claims C5 and C6: the snapshot diff -/

theorem filter_filterMap_nil {α β : Type} (f : α → Option β) (p : β → Bool)
    (l : List α) (h : ∀ x ∈ l, ∀ y, f x = some y → p y = false) :
    (l.filterMap f).filter p = [] := by
  induction l with
  | nil => rfl
  | cons a t ih =>
    have ht := ih (fun x hx y hy => h x (List.mem_cons_of_mem a hx) y hy)
    cases hf : f a with
    | none => simp [List.filterMap_cons, hf, ht]
    | some b =>
      have hb : p b = false := h a (List.mem_cons_self a t) b hf
      simp [List.filterMap_cons, hf, List.filter_cons, hb, ht]

theorem delisted_filter_nil (pid : Nat) (pname : String) (previous : Snapshot)
    (current : List BazaarItem) (i : Nat) (b : BazaarItem)
    (hb : b ∈ current) (hbi : b.item_id = i) :
    (previous.filterMap (delistedEvent pid pname current)).filter
      (fun s => s.item_id == i) = [] := by
  apply filter_filterMap_nil
  intro pd _ y hy
  unfold delistedEvent at hy
  by_cases hany : (current.any fun item => item.item_id == pd.fst) = true
  · rw [if_pos hany] at hy
    cases hy
  · rw [if_neg hany] at hy
    injection hy with hy
    subst hy
    simp only
    by_cases hpi : pd.fst = i
    · exact absurd (List.any_eq_true.mpr ⟨b, hb, by simp [hbi, hpi]⟩) hany
    · simp [hpi]

theorem decrease_filter_eq (pid : Nat) (pname : String) (previous : Snapshot)
    (current : List BazaarItem) (i : Nat) (e : SnapEntry) (b : BazaarItem)
    (hnodup : (current.map (fun it => it.item_id)).Nodup)
    (hb : b ∈ current) (hbi : b.item_id = i)
    (hlook : lookupA previous i = some e) :
    (current.filterMap (decreaseEvent pid pname previous)).filter
        (fun s => s.item_id == i) =
      (if b.quantity < e.quantity then
        [{ player_id := some pid
           player_name := pname
           item_id := i
           item_name := b.name
           quantity_sold := e.quantity - b.quantity
           unit_price := e.price
           total_value := (e.quantity - b.quantity) * e.price
           source := none }]
      else []) := by
  revert hnodup hb
  induction current with
  | nil =>
    intro _ hb
    cases hb
  | cons c rest ih =>
    intro hnodup hb
    rw [List.map_cons, List.nodup_cons] at hnodup
    obtain ⟨hcnot, hnodup'⟩ := hnodup
    by_cases hci : c.item_id = i
    · have hbc : b = c := by
        rcases List.mem_cons.mp hb with rfl | hbr
        · rfl
        · exact absurd
            (List.mem_map.mpr ⟨b, hbr, hbi.trans hci.symm⟩) hcnot
      subst hbc
      have hdec : decreaseEvent pid pname previous b =
          (if b.quantity < e.quantity then
            some { player_id := some pid
                   player_name := pname
                   item_id := i
                   item_name := b.name
                   quantity_sold := e.quantity - b.quantity
                   unit_price := e.price
                   total_value := (e.quantity - b.quantity) * e.price
                   source := none }
          else none) := by
        unfold decreaseEvent
        rw [hbi, hlook]
      have hrest : (rest.filterMap
          (decreaseEvent pid pname previous)).filter
          (fun s => s.item_id == i) = [] := by
        apply filter_filterMap_nil
        intro x hx y hy
        unfold decreaseEvent at hy
        have hxi : x.item_id ≠ i := by
          intro hxi
          exact hcnot (List.mem_map.mpr ⟨x, hx, hxi.trans hci.symm⟩)
        split at hy
        · split at hy
          · injection hy with hy
            subst hy
            simp [hxi]
          · cases hy
        · cases hy
      by_cases hq : b.quantity < e.quantity
      · simp [List.filterMap_cons, hdec, hq, List.filter_cons, hrest]
      · simp [List.filterMap_cons, hdec, hq, hrest]
    · have hbr : b ∈ rest := by
        rcases List.mem_cons.mp hb with rfl | h
        · exact absurd hbi hci
        · exact h
      have htail := ih hnodup' hbr
      cases hf : decreaseEvent pid pname previous c with
      | none => simp [List.filterMap_cons, hf, htail]
      | some y =>
        have hyne : (y.item_id == i) = false := by
          unfold decreaseEvent at hf
          split at hf
          · split at hf
            · injection hf with hf
              subst hf
              simp [hci]
            · cases hf
          · cases hf
        simp [List.filterMap_cons, hf, List.filter_cons, hyne, htail]

theorem detect_core_of_lookup (store : BazaarStore) (pid : Nat)
    (pname : String) (current : List BazaarItem) (previous : Snapshot)
    (hsnap : lookupA store pid = some previous) (hne : previous ≠ []) :
    detect_sales_for_player store pid pname current =
      (detectSalesCore pid pname previous current,
       save_player_snapshot store pid current) := by
  have hprev : get_player_snapshot store pid = previous := by
    unfold get_player_snapshot
    rw [hsnap]
    rfl
  have hie : previous.isEmpty = false := by
    cases previous with
    | nil => exact absurd rfl hne
    | cons _ _ => rfl
  simp only [detect_sales_for_player]
  rw [hprev, hie]
  simp

/-- Claim C5: for every item present in both the previous and current
snapshots, detect emits a sale event exactly when
`current.quantity < previous.quantity`, of `previous.quantity -
current.quantity` units valued at the previous unit price; a price-only
change with unchanged quantity, or a quantity increase, produces no sale
event for that item. -/
theorem detect_sale_iff_quantity_drop (store : BazaarStore) (pid : Nat)
    (pname : String) (previous : Snapshot) (current : List BazaarItem)
    (i : Nat) (e : SnapEntry) (b : BazaarItem)
    (hsnap : lookupA store pid = some previous)
    (hnodup : (current.map (fun it => it.item_id)).Nodup)
    (hb : b ∈ current) (hbi : b.item_id = i)
    (hlook : lookupA previous i = some e) :
    ((detect_sales_for_player store pid pname current).fst).filter
        (fun s => s.item_id == i) =
      (if b.quantity < e.quantity then
        [{ player_id := some pid
           player_name := pname
           item_id := i
           item_name := b.name
           quantity_sold := e.quantity - b.quantity
           unit_price := e.price
           total_value := (e.quantity - b.quantity) * e.price
           source := none }]
      else []) := by
  have hne : previous ≠ [] := by
    intro h
    subst h
    simp [lookupA] at hlook
  rw [detect_core_of_lookup store pid pname current previous hsnap hne]
  unfold detectSalesCore
  rw [List.filter_append,
    delisted_filter_nil pid pname previous current i b hb hbi,
    List.append_nil]
  exact decrease_filter_eq pid pname previous current i e b hnodup hb hbi hlook

theorem detect_sale_iff_quantity_drop_witness :
    ((detect_sales_for_player [(9, [(206, ⟨10, 100⟩)])] 9 "Bob"
        [⟨206, "Xanax", 4, 100⟩]).fst).filter (fun s => s.item_id == 206) =
      (if (4 : Nat) < 10 then
        [{ player_id := some 9
           player_name := "Bob"
           item_id := 206
           item_name := "Xanax"
           quantity_sold := 10 - 4
           unit_price := 100
           total_value := (10 - 4) * 100
           source := none }]
      else []) :=
  detect_sale_iff_quantity_drop [(9, [(206, ⟨10, 100⟩)])] 9 "Bob"
    [(206, ⟨10, 100⟩)] [⟨206, "Xanax", 4, 100⟩] 206 ⟨10, 100⟩
    ⟨206, "Xanax", 4, 100⟩ (by decide) (by decide) (by decide) (by decide)
    (by decide)

theorem lookupA_mem {α : Type} (l : List (Nat × α)) (pd : Nat × α)
    (h : pd ∈ l) : ∃ v, lookupA l pd.fst = some v := by
  induction l with
  | nil => cases h
  | cons a t ih =>
    obtain ⟨k, w⟩ := a
    simp only [lookupA]
    by_cases hk : k = pd.fst
    · rw [if_pos hk]
      exact ⟨w, rfl⟩
    · rcases List.mem_cons.mp h with rfl | ht
      · exact absurd rfl hk
      · rw [if_neg hk]
        exact ih ht

theorem delisted_event_ne (pid : Nat) (pname : String)
    (current : List BazaarItem) (i : Nat) (pd : Nat × SnapEntry)
    (hne : pd.fst ≠ i) :
    ∀ y, delistedEvent pid pname current pd = some y →
      (y.item_id == i) = false := by
  intro y hy
  unfold delistedEvent at hy
  split at hy
  · cases hy
  · injection hy with hy
    subst hy
    simp [hne]

theorem delisted_filter_eq (pid : Nat) (pname : String)
    (current : List BazaarItem) (previous : Snapshot) (i : Nat)
    (e : SnapEntry) (hnodup : (previous.map Prod.fst).Nodup)
    (hlook : lookupA previous i = some e)
    (hnone : (current.any fun item => item.item_id == i) = false) :
    (previous.filterMap (delistedEvent pid pname current)).filter
        (fun s => s.item_id == i) =
      [{ player_id := some pid
         player_name := pname
         item_id := i
         item_name := "Item " ++ toString i
         quantity_sold := e.quantity
         unit_price := e.price
         total_value := e.quantity * e.price
         source := none }] := by
  revert hnodup hlook
  induction previous with
  | nil =>
    intro _ hlook
    simp [lookupA] at hlook
  | cons a t ih =>
    intro hnodup hlook
    obtain ⟨k, w⟩ := a
    rw [List.map_cons, List.nodup_cons] at hnodup
    obtain ⟨hknot, hnodup'⟩ := hnodup
    by_cases hk : k = i
    · subst hk
      have hwe : w = e := by
        have h' := hlook
        simp only [lookupA, if_pos rfl] at h'
        exact Option.some.inj h'
      subst hwe
      have htail : (t.filterMap (delistedEvent pid pname current)).filter
          (fun s => s.item_id == k) = [] := by
        apply filter_filterMap_nil
        intro pd hpd y hy
        refine delisted_event_ne pid pname current k pd ?_ y hy
        intro hpdi
        exact hknot (hpdi ▸ List.mem_map.mpr ⟨pd, hpd, rfl⟩)
      have hhead : delistedEvent pid pname current (k, w) =
          some { player_id := some pid
                 player_name := pname
                 item_id := k
                 item_name := "Item " ++ toString k
                 quantity_sold := w.quantity
                 unit_price := w.price
                 total_value := w.quantity * w.price
                 source := none } := by
        simp [delistedEvent, hnone]
      simp [List.filterMap_cons, hhead, List.filter_cons, htail]
    · have hlook' : lookupA t i = some e := by
        simpa [lookupA, hk] using hlook
      have htail := ih hnodup' hlook'
      cases hf : delistedEvent pid pname current (k, w) with
      | none => simpa [List.filterMap_cons, hf] using htail
      | some y =>
        have hyne := delisted_event_ne pid pname current i (k, w) hk y hf
        simpa [List.filterMap_cons, hf, List.filter_cons, hyne] using htail

theorem detect_events_have_prev_key (pid : Nat) (pname : String)
    (previous : Snapshot) (current : List BazaarItem) (s : SaleEvent)
    (hs : s ∈ detectSalesCore pid pname previous current) :
    ∃ e', lookupA previous s.item_id = some e' := by
  unfold detectSalesCore at hs
  rcases List.mem_append.mp hs with h | h
  · obtain ⟨c, hc, hcs⟩ := List.mem_filterMap.mp h
    unfold decreaseEvent at hcs
    split at hcs
    · rename_i prev hprev
      split at hcs
      · injection hcs with hcs
        subst hcs
        exact ⟨prev, hprev⟩
      · cases hcs
    · cases hcs
  · obtain ⟨pd, hpd, hps⟩ := List.mem_filterMap.mp h
    unfold delistedEvent at hps
    split at hps
    · cases hps
    · injection hps with hps
      subst hps
      simpa using lookupA_mem previous pd hpd

/-- Claim C6: an item present in the previous snapshot but absent from the
current one yields a sale of the entire previous quantity at the previous
unit price; items present only in the current snapshot produce no event
(every event's item is a key of the previous snapshot); and the stored
snapshot is unconditionally overwritten with the current one. -/
theorem detect_delisted_full_sale (store : BazaarStore) (pid : Nat)
    (pname : String) (previous : Snapshot) (current : List BazaarItem)
    (i : Nat) (e : SnapEntry)
    (hsnap : lookupA store pid = some previous)
    (hnodup : (previous.map Prod.fst).Nodup)
    (hlook : lookupA previous i = some e)
    (habsent : ∀ b ∈ current, b.item_id ≠ i) :
    ((detect_sales_for_player store pid pname current).fst).filter
        (fun s => s.item_id == i) =
      [{ player_id := some pid
         player_name := pname
         item_id := i
         item_name := "Item " ++ toString i
         quantity_sold := e.quantity
         unit_price := e.price
         total_value := e.quantity * e.price
         source := none }] ∧
    (∀ s ∈ (detect_sales_for_player store pid pname current).fst,
      ∃ e', lookupA previous s.item_id = some e') ∧
    get_player_snapshot
        (detect_sales_for_player store pid pname current).snd pid
      = snapshotOfBazaar current := by
  have hne : previous ≠ [] := by
    intro h
    subst h
    simp [lookupA] at hlook
  rw [detect_core_of_lookup store pid pname current previous hsnap hne]
  have hnone : (current.any fun item => item.item_id == i) = false := by
    rw [List.any_eq_false]
    intro b hb
    simp [habsent b hb]
  refine ⟨?_, ?_, ?_⟩
  · show (detectSalesCore pid pname previous current).filter
        (fun s => s.item_id == i) = _
    unfold detectSalesCore
    rw [List.filter_append]
    have hdec_nil : (current.filterMap
        (decreaseEvent pid pname previous)).filter
        (fun s => s.item_id == i) = [] := by
      apply filter_filterMap_nil
      intro x hx y hy
      unfold decreaseEvent at hy
      split at hy
      · split at hy
        · injection hy with hy
          subst hy
          simp [habsent x hx]
        · cases hy
      · cases hy
    rw [hdec_nil, List.nil_append]
    exact delisted_filter_eq pid pname current previous i e hnodup hlook hnone
  · intro s hs
    exact detect_events_have_prev_key pid pname previous current s hs
  · exact get_save_player_snapshot store pid current

theorem detect_delisted_full_sale_witness :
    ((detect_sales_for_player [(9, [(207, ⟨5, 50⟩)])] 9 "Bob"
        [⟨206, "Xanax", 4, 100⟩]).fst).filter (fun s => s.item_id == 207) =
      [{ player_id := some 9
         player_name := "Bob"
         item_id := 207
         item_name := "Item " ++ toString 207
         quantity_sold := 5
         unit_price := 50
         total_value := 5 * 50
         source := none }] ∧
    (∀ s ∈ (detect_sales_for_player [(9, [(207, ⟨5, 50⟩)])] 9 "Bob"
        [⟨206, "Xanax", 4, 100⟩]).fst,
      ∃ e', lookupA [(207, (⟨5, 50⟩ : SnapEntry))] s.item_id = some e') ∧
    get_player_snapshot
        (detect_sales_for_player [(9, [(207, ⟨5, 50⟩)])] 9 "Bob"
          [⟨206, "Xanax", 4, 100⟩]).snd 9
      = snapshotOfBazaar [⟨206, "Xanax", 4, 100⟩] :=
  detect_delisted_full_sale [(9, [(207, ⟨5, 50⟩)])] 9 "Bob" [(207, ⟨5, 50⟩)]
    [⟨206, "Xanax", 4, 100⟩] 207 ⟨5, 50⟩ (by decide) (by decide) (by decide)
    (by decide)

/-! ## Claim C3: VIP records and the rule pass -/

theorem nonMoneyEq_refl (t : TargetRecord) : nonMoneyEq t t := by
  simp [nonMoneyEq]

theorem nonMoneyEq_trans {t1 t2 t3 : TargetRecord} (h1 : nonMoneyEq t1 t2)
    (h2 : nonMoneyEq t2 t3) : nonMoneyEq t1 t3 := by
  obtain ⟨a1, b1, c1, d1, e1, f1, g1, s1, d1', v1⟩ := h1
  obtain ⟨a2, b2, c2, d2, e2, f2, g2, s2, d2', v2⟩ := h2
  exact ⟨a2.trans a1, b2.trans b1, c2.trans c1, d2.trans d1, e2.trans e1,
    f2.trans f1, g2.trans g1, s2.trans s1, d2'.trans d1', v2.trans v1⟩

theorem caymanStep_vip (t : TargetRecord) :
    ∃ t', caymanStep true t = some t' ∧ nonMoneyEq t t' := by
  unfold caymanStep
  split
  · exact ⟨{ t with accumulated_value := 0 }, by simp, by simp [nonMoneyEq]⟩
  · exact ⟨t, rfl, nonMoneyEq_refl t⟩

theorem saStep_nonMoney (t : TargetRecord) : nonMoneyEq t (saStep t) := by
  unfold saStep
  split
  · simp [nonMoneyEq]
  · exact nonMoneyEq_refl t

theorem muggedStep_vip (t : TargetRecord) :
    ∃ t', muggedStep true t = some t' ∧ nonMoneyEq t t' := by
  unfold muggedStep
  split
  · exact ⟨{ t with accumulated_value := 0 }, by simp, by simp [nonMoneyEq]⟩
  · exact ⟨t, rfl, nonMoneyEq_refl t⟩

theorem onlineStep_vip (trav onl : Bool) (t : TargetRecord) :
    ∃ t', onlineStep true trav onl t = some t' ∧ nonMoneyEq t t' := by
  unfold onlineStep
  split
  · split
    · exact ⟨t, rfl, nonMoneyEq_refl t⟩
    · exact ⟨{ t with accumulated_value := 0 }, by simp, by simp [nonMoneyEq]⟩
  · exact ⟨t, rfl, nonMoneyEq_refl t⟩

theorem landedStep_nonMoney (pt : String) (t : TargetRecord) :
    nonMoneyEq t (landedStep pt t) := by
  unfold landedStep
  split
  · simp [nonMoneyEq]
  · exact nonMoneyEq_refl t

theorem federalStep_some (t : TargetRecord)
    (h : t.status_state ≠ "Federal") : federalStep t = some t := by
  simp [federalStep, h]

/-- Claim C3 (amended): for every VIP actor with a live TargetRecord whose
status is not the Federal jail state, the rule pass never deletes the
record — the surviving record differs at most in `accumulated_value` and
`sa_deduction_applied` — and the staleness pass keeps VIPs at every cutoff.
(A VIP whose `status_state` is `"Federal"` IS dropped — see the
counterexample.) -/
theorem vip_never_dropped_unless_federal (vip : List Nat) (t : TargetRecord)
    (hvip : vip.contains t.player_id = true)
    (hfed : t.status_state ≠ "Federal") :
    ∃ t', apply_business_logic_target vip t = some t' ∧ nonMoneyEq t t' ∧
      (∀ cutoff : Nat, stalePred vip cutoff t' = true) := by
  obtain ⟨t1, h1, m1⟩ := caymanStep_vip t
  obtain ⟨t3, h3, m3⟩ := muggedStep_vip (saStep t1)
  obtain ⟨t4, h4, m4⟩ := onlineStep_vip (t.status_state == "Abroad")
    (decide (t.last_action_minutes < 2)) t3
  have m5 : nonMoneyEq t (landedStep t.travel_state t4) :=
    nonMoneyEq_trans
      (nonMoneyEq_trans (nonMoneyEq_trans m1 (saStep_nonMoney t1)) m3)
      (nonMoneyEq_trans m4 (landedStep_nonMoney t.travel_state t4))
  have mp : (landedStep t.travel_state t4).player_id = t.player_id := m5.1
  have mss : (landedStep t.travel_state t4).status_state = t.status_state :=
    m5.2.2.2.2.2.2.2.1
  refine ⟨landedStep t.travel_state t4, ?_, m5, ?_⟩
  · unfold apply_business_logic_target
    simp only [hvip, h1, h3, h4]
    exact federalStep_some _ (by rw [mss]; exact hfed)
  · intro cutoff
    unfold stalePred
    cases hls : (landedStep t.travel_state t4).last_sale_time with
    | none => rfl
    | some ts =>
      have hv : vip.contains (landedStep t.travel_state t4).player_id
          = true := by
        rw [mp]
        exact hvip
      rw [hv]
      simp

theorem vip_never_dropped_witness :
    ∃ t', apply_business_logic_target [7] tMuggedVip = some t' ∧
      nonMoneyEq tMuggedVip t' ∧
      (∀ cutoff : Nat, stalePred [7] cutoff t' = true) :=
  vip_never_dropped_unless_federal [7] tMuggedVip (by decide) (by decide)

/-- Claim C3 (counterexample): a VIP in the Federal jail state IS deleted by
the rule pass — the Federal rule drops unconditionally, VIP or not, so "no
rule-engine pass ever deletes a VIP record" is false on the code. -/
theorem vip_federal_dropped :
    ([7] : List Nat).contains tFederalVip.player_id = true ∧
    apply_business_logic_target [7] tFederalVip = none := by decide

/-! ## Claim C2: the South Africa deduction flag -/

theorem caymanStep_flag (b : Bool) (t t1 : TargetRecord)
    (h : caymanStep b t = some t1) :
    t1.sa_deduction_applied = t.sa_deduction_applied ∧
    t1.status_state = t.status_state := by
  unfold caymanStep at h
  split at h
  · split at h
    · injection h with h
      subst h
      exact ⟨rfl, rfl⟩
    · cases h
  · injection h with h
    subst h
    exact ⟨rfl, rfl⟩

theorem saStep_flag_status (t : TargetRecord) :
    (saStep t).status_state = t.status_state ∧
    (t.sa_deduction_applied = true →
      (saStep t).sa_deduction_applied = true) := by
  unfold saStep
  split
  · exact ⟨rfl, fun _ => rfl⟩
  · exact ⟨rfl, fun h => h⟩

theorem muggedStep_flag (b : Bool) (t t1 : TargetRecord)
    (h : muggedStep b t = some t1) :
    t1.sa_deduction_applied = t.sa_deduction_applied ∧
    t1.status_state = t.status_state := by
  unfold muggedStep at h
  split at h
  · split at h
    · injection h with h
      subst h
      exact ⟨rfl, rfl⟩
    · cases h
  · injection h with h
    subst h
    exact ⟨rfl, rfl⟩

theorem onlineStep_flag (b trav onl : Bool) (t t1 : TargetRecord)
    (h : onlineStep b trav onl t = some t1) :
    t1.sa_deduction_applied = t.sa_deduction_applied ∧
    t1.status_state = t.status_state := by
  unfold onlineStep at h
  split at h
  · split at h
    · injection h with h
      subst h
      exact ⟨rfl, rfl⟩
    · split at h
      · injection h with h
        subst h
        exact ⟨rfl, rfl⟩
      · cases h
  · injection h with h
    subst h
    exact ⟨rfl, rfl⟩

theorem landedStep_no_clear (t : TargetRecord) (pt : String)
    (heq : pt = t.status_state) (hflag : t.sa_deduction_applied = true) :
    (landedStep pt t).sa_deduction_applied = true := by
  unfold landedStep
  split
  · rename_i hc
    exfalso
    rw [Bool.and_assoc, Bool.and_eq_true, Bool.and_eq_true] at hc
    obtain ⟨hok, hab, -⟩ := hc
    rw [beq_iff_eq] at hok hab
    rw [heq, hok] at hab
    exact absurd hab (by decide)
  · exact hflag

/-- Claim C2 (code evaluation): `batch_update_profile_data` writes the
current profile's `status_state` into both `status_state` and
`travel_state`, so the landed-back condition (`status_state == 'Okay' and
travel_state == 'Abroad'`) can never hold after a profile refresh, and a set
`sa_deduction_applied` flag is never cleared by the rule pass — contradicting
the claim that it is cleared exactly on the Abroad-to-Okay transition. -/
theorem sa_flag_never_cleared_after_profile_update (vip : List Nat)
    (t : TargetRecord) (p : ProfileData) (t' : TargetRecord)
    (hflag : t.sa_deduction_applied = true)
    (h : apply_business_logic_target vip (update_profile_fields t p)
      = some t') :
    t'.sa_deduction_applied = true := by
  unfold apply_business_logic_target at h
  cases hc : caymanStep (vip.contains (update_profile_fields t p).player_id)
      (update_profile_fields t p) with
  | none =>
    simp only [hc] at h
    cases h
  | some t1 =>
    simp only [hc] at h
    cases hm : muggedStep
        (vip.contains (update_profile_fields t p).player_id) (saStep t1) with
    | none =>
      simp only [hm] at h
      cases h
    | some t3 =>
      simp only [hm] at h
      cases ho : onlineStep
          (vip.contains (update_profile_fields t p).player_id)
          ((update_profile_fields t p).status_state == "Abroad")
          (decide ((update_profile_fields t p).last_action_minutes < 2))
          t3 with
      | none =>
        simp only [ho] at h
        cases h
      | some t4 =>
        simp only [ho] at h
        have f1 := caymanStep_flag _ _ _ hc
        have f2 := saStep_flag_status t1
        have f3 := muggedStep_flag _ _ _ hm
        have f4 := onlineStep_flag _ _ _ _ _ ho
        have hstat : t4.status_state
            = (update_profile_fields t p).status_state := by
          rw [f4.2, f3.2, f2.1, f1.2]
        have hflag4 : t4.sa_deduction_applied = true := by
          rw [f4.1, f3.1]
          refine f2.2 ?_
          rw [f1.1]
          exact hflag
        have hland : (landedStep (update_profile_fields t p).travel_state
            t4).sa_deduction_applied = true := by
          refine landedStep_no_clear t4 _ ?_ hflag4
          rw [hstat]
          rfl
        unfold federalStep at h
        split at h
        · cases h
        · injection h with h
          subst h
          exact hland

theorem sa_flag_never_cleared_witness :
    (update_profile_fields tAbroadSA pOkayHome).sa_deduction_applied
      = true :=
  sa_flag_never_cleared_after_profile_update [] tAbroadSA pOkayHome
    (update_profile_fields tAbroadSA pOkayHome) (by decide) (by decide)

/-! ## Claim C1: the closed-bazaar drop phase -/

/-- Claim C1 (code evaluation): the result dict built by `monitor_player`
omits the fetch's `bazaar_is_open` flag, so Phase 5.5's
`result.get('bazaar_is_open', True)` always defaults to open and the
drop/zero-on-closed-bazaar branch never fires: a fetch reporting the bazaar
closed, for a live non-VIP target with sales detected that cycle, leaves
the target record untouched — contradicting the claim that it is dropped. -/
theorem closed_bazaar_never_drops :
    dataClosed.bazaar_is_open = false ∧
    get_target [t42] 42 = some t42 ∧
    (detect_sales_for_player store42 42 dataClosed.profile_data.player_name
      dataClosed.bazaar).fst ≠ [] ∧
    dictGet (monitor_player store42 42 dataClosed).fst "bazaar_is_open"
      = none ∧
    drop_closed_bazaar_step [] [t42] (monitor_player store42 42 dataClosed).fst
      = [t42] := by decide
